import Mathlib

/-!
Shallow embedding of the GeneWise ancient-DNA service
(`app/main.py`, `app/dna_generator.py`, `app/utils.py`).

The in-memory store `ancient_data` (a Python dict) is modelled as an
insertion-ordered association list with in-place overwrite, matching dict
semantics (overwriting a key keeps its original position; iteration order is
insertion order).  HTTP endpoint handlers are modelled as state-passing
functions returning a `(result, store)` pair so that the absence of store
mutation is an explicit, provable fact.  Python exceptions on the modelled
paths (`ZeroDivisionError` in the similarity comparator, `HTTPException` in
the handlers) are modelled with `Option`/`Except`.

Python builtins used by the code are modelled as an explicit environment
(`PyEnv`): the builtin `hash` on strings is keyed by a per-process
interpreter salt (PYTHONHASHSEED randomisation), while `hashlib.sha256` and
the seeded `random.choices` draw sequence are fixed algorithms identical in
every process.  Floating-point `round(x, 2)` is modelled as exact rational
rounding, half to even (Python's documented tie policy).
-/

set_option maxRecDepth 8000

namespace GeneWise

/-- Pydantic model `SampleData` in `main.py`: one uploaded sample record. -/
structure SampleData where
  id : String
  region : String
  age : Int
  seed : String
deriving Repr, DecidableEq

/-- The value stored in `ancient_data[id]`: the dict
`{"region": ..., "age": ..., "seed": ...}` built by `process_sample_data`. -/
structure SampleRec where
  region : String
  age : Int
  seed : String
deriving Repr, DecidableEq

/-- The global dict `ancient_data`, as an insertion-ordered association list. -/
abbrev Store := List (String × SampleRec)

/-- Python dict assignment `d[k] = v`: overwrite in place if the key exists
(keeping its position), otherwise append at the end. -/
def dictInsert (store : Store) (k : String) (v : SampleRec) : Store :=
  match store with
  | [] => [(k, v)]
  | (k', v') :: rest =>
    if k' = k then (k, v) :: rest else (k', v') :: dictInsert rest k v

/-- Python dict read `d.get(k)` / `k in d`: first (unique) binding of `k`. -/
def dictLookup (store : Store) (k : String) : Option SampleRec :=
  match store with
  | [] => none
  | (k', v') :: rest => if k' = k then some v' else dictLookup rest k

/-- Helper `process_sample_data` in `main.py`: stores the three attribute
fields under the sample's id and returns the sample. -/
def process_sample_data (sample : SampleData) (store : Store) :
    Store × SampleData :=
  (dictInsert store sample.id ⟨sample.region, sample.age, sample.seed⟩, sample)

/-- Environment of Python builtins used by the two sequence generators.
`pyHashKeyed` is the keyed string-hashing algorithm behind the builtin
`hash` (SipHash): a fixed algorithm applied to the per-process salt
`hashSalt` (derived from PYTHONHASHSEED, randomised at interpreter start)
and the string.  `sha256hex8` is `int(hashlib.sha256(s.encode()).hexdigest()[:8], 16)`,
a fixed function of the string alone.  `randChoice seedVal i` is the i-th
draw (an index into the population "ATCG") produced by `random.choices`
after `random.seed(seedVal)`; it is a fixed algorithm (Mersenne Twister). -/
structure PyEnv where
  hashSalt : Nat
  pyHashKeyed : Nat → String → Int
  sha256hex8 : String → Nat
  randChoice : Int → Nat → Fin 4

/-- Two interpreter processes run the same fixed algorithms (SipHash,
SHA-256, Mersenne Twister); only the per-process hash salt may differ. -/
def sameAlgorithms (e1 e2 : PyEnv) : Prop :=
  e1.pyHashKeyed = e2.pyHashKeyed ∧ e1.sha256hex8 = e2.sha256hex8 ∧
    e1.randChoice = e2.randChoice

/-- The population string "ATCG" of `random.choices`, as a function of the
drawn index. -/
def ATCG : Fin 4 → Char
  | 0 => 'A'
  | 1 => 'T'
  | 2 => 'C'
  | 3 => 'G'

/-- `generate_dna_sequence` in `main.py` (the one the endpoints call):
seeds Python's `random` with `hash(f"{sample_id}-{region}-{age}-{seed}")`
— the salted builtin `hash` — and joins 100 draws from "ATCG". -/
def generate_dna_sequence_main (env : PyEnv) (sample_id region : String)
    (age : Int) (seed : String) : String :=
  let key := s!"{sample_id}-{region}-{age}-{seed}"
  let h := env.pyHashKeyed env.hashSalt key
  String.mk ((List.range 100).map fun i => ATCG (env.randChoice h i))

/-- `generate_dna_sequence` in `dna_generator.py`: seeds Python's `random`
with the first 8 hex digits of `sha256(f"{id}:{region}:{age}:{seed}")`
and joins 200 draws from "ATCG". -/
def generate_dna_sequence_sha (env : PyEnv) (id region : String)
    (age : Int) (seed : String) : String :=
  let base := s!"{id}:{region}:{age}:{seed}"
  let seedInt := env.sha256hex8 base
  String.mk ((List.range 200).map fun i => ATCG (env.randChoice (Int.ofNat seedInt) i))

/-- Round a rational to an integer, ties to even: the tie policy of
Python's builtin `round`. -/
def rhe (q : ℚ) : ℤ :=
  if Int.fract q < 1 / 2 then ⌊q⌋
  else if 1 / 2 < Int.fract q then ⌊q⌋ + 1
  else if ⌊q⌋ % 2 = 0 then ⌊q⌋ else ⌊q⌋ + 1

/-- Python's `round(x, 2)`, modelled exactly over the rationals. -/
def pyRound2 (q : ℚ) : ℚ := (rhe (q * 100) : ℚ) / 100

/-- The comprehension `sum(1 for a, b in zip(seq1, seq2) if a == b)` in
`calculate_similarity`, and the identical one in `compare_sequences`. -/
def matchCount (l1 l2 : List Char) : Nat :=
  (l1.zip l2).countP fun p => p.1 == p.2

/-- `calculate_similarity` in `utils.py`.  The division
`matches / length` is unguarded in the source; `length = 0` raises
`ZeroDivisionError`, modelled as `none`. -/
def calculate_similarity (seq1 seq2 : String) : Option ℚ :=
  let nMatches := matchCount seq1.data seq2.data
  let length := min seq1.length seq2.length
  if length = 0 then none
  else some (pyRound2 ((nMatches : ℚ) / (length : ℚ) * 100))

/-- `HTTPException(status_code=..., detail=...)` raised by the handlers. -/
structure HTTPError where
  status : Nat
  detail : String
deriving Repr, DecidableEq

/-- Endpoint `GET /generate-sequence/` (`get_sequence` in `main.py`):
404 if the id is not stored, otherwise the response
`{"sample_id": ..., "sequence": ...}` computed with the `main.py`
generator.  The store is returned explicitly to make the handler's effect
on it visible. -/
def get_sequence (env : PyEnv) (store : Store) (sample_id : String) :
    Except HTTPError (String × String) × Store :=
  match dictLookup store sample_id with
  | none => (.error ⟨404, "Sample ID not found."⟩, store)
  | some data =>
    (.ok (sample_id, generate_dna_sequence_main env sample_id data.region data.age data.seed),
      store)

/-- Endpoint `GET /compare-sequences/` (`compare_sequences` in `main.py`):
404 unless both ids are stored; otherwise generates both sequences with the
`main.py` generator and computes `round(matches / len(seq1) * 100, 2)`
inline.  The division by `len(seq1)` is unguarded in the source; a zero
length would raise `ZeroDivisionError` (modelled as a 500-style error,
though the branch is unreachable since the generator always returns 100
characters). -/
def compare_sequences (env : PyEnv) (store : Store) (id1 id2 : String) :
    Except HTTPError (String × String × ℚ) × Store :=
  match dictLookup store id1, dictLookup store id2 with
  | some d1, some d2 =>
    let seq1 := generate_dna_sequence_main env id1 d1.region d1.age d1.seed
    let seq2 := generate_dna_sequence_main env id2 d2.region d2.age d2.seed
    let nMatches := matchCount seq1.data seq2.data
    if seq1.length = 0 then (.error ⟨500, "ZeroDivisionError"⟩, store)
    else (.ok (id1, id2, pyRound2 ((nMatches : ℚ) / (seq1.length : ℚ) * 100)), store)
  | _, _ => (.error ⟨404, "One or both sample IDs not found."⟩, store)

/-- Endpoint `GET /list-samples/` (`list_samples` in `main.py`): one output
record per store entry, in store iteration order. -/
def list_samples (store : Store) : List SampleData × Store :=
  (store.map fun p => ⟨p.1, p.2.region, p.2.age, p.2.seed⟩, store)

/-- The `age` cell of a parsed CSV row as pandas hands it to the loop body
of `upload_csv`: missing (`NaN`), an integer, or a value on which `int(...)`
raises. -/
inductive RawAge
  | na
  | int (z : Int)
  | bad
deriving Repr, DecidableEq

/-- One row of the parsed CSV (`df.iterrows()` in `upload_csv`).  The `id`,
`region` and `seed` cells are taken as strings; the `age` cell may be
missing or unparseable. -/
structure RawRow where
  id : String
  region : String
  age : RawAge
  seed : String
deriving Repr, DecidableEq

/-- The row-to-`SampleData` conversion inside `upload_csv`'s loop:
`age=int(row["age"]) if pd.notna(row["age"]) else 0`; `none` when the
conversion raises (the row-level `except` branch, which logs and skips). -/
def rowParse (r : RawRow) : Option SampleData :=
  match r.age with
  | .bad => none
  | .na => some ⟨r.id, r.region, 0, r.seed⟩
  | .int z => some ⟨r.id, r.region, z, r.seed⟩

/-- Endpoint `POST /upload-csv/` (`upload_csv` in `main.py`), from the point
where the CSV has been parsed into rows: each row is converted and stored;
a row whose conversion raises is logged and skipped; the success message
reports `len(df)`. -/
def upload_csv (df : List RawRow) (store : Store) : String × Store :=
  let final := df.foldl
    (fun st row =>
      match rowParse row with
      | some s => (process_sample_data s st).1
      | none => st)
    store
  (s!"{df.length} records successfully uploaded.", final)

/-- Endpoint `POST /upload-json/` (`upload_json` in `main.py`). -/
def upload_json (samples : List SampleData) (store : Store) : String × Store :=
  (s!"{samples.length} records successfully uploaded.",
    samples.foldl (fun st s => (process_sample_data s st).1) store)

/-- Endpoint `POST /add-sample/` (`add_sample` in `main.py`). -/
def add_sample (sample : SampleData) (store : Store) : String × Store :=
  ("Sample successfully added.", (process_sample_data sample store).1)

/-- Substring containment on lists of characters, the semantics of Python's
`sub in s` on strings. -/
def listContainsSub (sub : List Char) : List Char → Bool
  | [] => sub.isEmpty
  | c :: rest => List.isPrefixOf sub (c :: rest) || listContainsSub sub rest

/-- Python's `sub in hay` on strings. -/
def strContains (hay sub : String) : Bool :=
  listContainsSub sub.data hay.data

/-- Python's format specifier `:.2f`: fixed-point with two decimals
(rounding ties to even, as `format` does on decimal-exact values). -/
def formatFixed2 (q : ℚ) : String :=
  let n := rhe (q * 100)
  let sign := if n < 0 then "-" else ""
  let m := n.natAbs
  let frac := m % 100
  sign ++ toString (m / 100) ++ "." ++ (if frac < 10 then "0" else "") ++ toString frac

/-- The region histogram built in the `regions` branch of
`ask_me_anything`: counts per region value, first-seen order (a Python
dict built by iteration). -/
def regionCounts (regions : List String) : List (String × Nat) :=
  regions.foldl
    (fun acc r =>
      if acc.any (fun p => p.1 = r) then
        acc.map fun p => if p.1 = r then (p.1, p.2 + 1) else p
      else acc ++ [(r, 1)])
    []

/-- The `", ".join(f"{region}: {count}" ...)` formatting of the region
histogram. -/
def regionInfo (counts : List (String × Nat)) : String :=
  String.intercalate ", " (counts.map fun p => s!"{p.1}: {p.2}")

/-- Outcome of the external Gemini call in `ask_me_anything`: a 200
response with the expected body shape, a 200 response missing the expected
fields, a non-200 status, or a raised exception (network error etc.). -/
inductive LLMResult
  | ok (text : String)
  | malformed
  | httpError (status : Nat)
  | exn (msg : String)

/-- Process configuration for `ask_me_anything`: the `GEMINI_API_KEY`
environment variable (None disables the fallback) and the external Gemini
collaborator, modelled as an oracle from the prompt sent to the outcome of
the HTTP call. -/
structure Config where
  geminiApiKey : Option String
  llm : String → LLMResult

/-- The `data_context` prompt prefix built in the Gemini branch of
`ask_me_anything` from the first 10 stored records. -/
def dataContext (store : Store) : String :=
  (store.take 10).foldl
    (fun acc p =>
      acc ++ s!"ID: {p.1}, Region: {p.2.region}, Age: {p.2.age}, Seed: {p.2.seed}\n")
    "Based on the following data:\n"

/-- Endpoint `POST /ask-me-anything/` (`ask_me_anything` in `main.py`): the
keyword dispatcher over the lower-cased question.  Branch order as in the
source: empty store first, then average age, then regions, then
count, then the Gemini fallback (when a key is configured), else the fixed
fallback answer. -/
def ask_me_anything (cfg : Config) (store : Store) (question : String) :
    String × Store :=
  if store.isEmpty then
    ("No data has been uploaded yet. Please upload a CSV file first.", store)
  else
    let ql := question.toLower
    if strContains ql "average" && strContains ql "age" then
      let ages := store.map fun p => p.2.age
      if ages.isEmpty then
        ("I couldn't find age data in the uploaded information.", store)
      else
        let avg : ℚ := (ages.map fun a => (a : ℚ)).sum / (ages.length : ℚ)
        (s!"The average age in the uploaded data is {formatFixed2 avg} years.", store)
    else if strContains ql "region" || strContains ql "regions" then
      let counts := regionCounts (store.map fun p => p.2.region)
      (s!"The data includes the following regions: {regionInfo counts}", store)
    else if ["many", "count", "number", "records", "samples"].any
        (fun w => strContains ql w) then
      (s!"There are {store.length} records in the uploaded data.", store)
    else
      match cfg.geminiApiKey with
      | some _ =>
        let prompt := dataContext store ++ s!"\n\nQuestion: {question}"
        match cfg.llm prompt with
        | .ok text => (text, store)
        | .malformed => ("Sorry, I couldn't process the response from the AI model.", store)
        | .httpError st =>
          (s!"Error: {st}. The API couldn't process your request.", store)
        | .exn msg => (s!"I encountered an error: {msg}", store)
      | none =>
        ("I'm sorry, I don't have enough information to answer that question. Please try asking about the age, region, or number of records in the uploaded data.", store)

/-- A concrete interpreter environment used to evaluate the model: hash
salt 0, a keyed hash that returns the salt, and a draw function that keys on
the seed. -/
def envA : PyEnv :=
  { hashSalt := 0
    pyHashKeyed := fun salt _ => Int.ofNat salt
    sha256hex8 := fun _ => 0
    randChoice := fun h _ => if h = 0 then 0 else 1 }

/-- The same interpreter as `envA` restarted with a different hash salt:
identical fixed algorithms, different per-process salt. -/
def envB : PyEnv := { envA with hashSalt := 1 }

/-- A concrete configuration with no Gemini key and an unreachable oracle. -/
def cfgA : Config := ⟨none, fun _ => .exn "down"⟩

/-- A concrete one-sample store (the spec's end-to-end scenario row). -/
def storeA : Store := [("A1", ⟨"Andes", 500, "x"⟩)]

/-- A concrete two-sample store. -/
def storeB : Store := [("A1", ⟨"Andes", 500, "x"⟩), ("B2", ⟨"Alps", 300, "y"⟩)]

/-- A concrete parsed CSV batch: one well-formed row and one row whose
`age` cell makes `int(...)` raise. -/
def dfA : List RawRow := [⟨"A1", "Andes", .int 500, "x"⟩, ⟨"B2", "Alps", .bad, "y"⟩]

/-! ### Helper lemmas -/

theorem strLength_data (s : String) : s.length = s.data.length := rfl

theorem dictLookup_dictInsert_self (store : Store) (k : String) (v : SampleRec) :
    dictLookup (dictInsert store k v) k = some v := by
  induction store with
  | nil => simp [dictInsert, dictLookup]
  | cons p rest ih =>
    by_cases h : p.1 = k
    · simp [dictInsert, dictLookup, h]
    · simp [dictInsert, dictLookup, h, ih]

theorem matchCount_symm (l1 l2 : List Char) : matchCount l1 l2 = matchCount l2 l1 := by
  induction l1 generalizing l2 with
  | nil => cases l2 <;> rfl
  | cons a l1 ih =>
    cases l2 with
    | nil => rfl
    | cons b l2 =>
      simp only [matchCount, List.zip_cons_cons, List.countP_cons] at ih ⊢
      rw [ih l2, Bool.beq_comm]

theorem matchCount_le_min (l1 l2 : List Char) :
    matchCount l1 l2 ≤ min l1.length l2.length := by
  have h := List.countP_le_length (p := fun p : Char × Char => p.1 == p.2)
    (l := l1.zip l2)
  simpa [matchCount, List.length_zip] using h

theorem matchCount_take_min (l1 l2 : List Char) :
    matchCount (l1.take (min l1.length l2.length)) (l2.take (min l1.length l2.length)) =
      matchCount l1 l2 := by
  unfold matchCount
  have hz : (l1.take (min l1.length l2.length)).zip (l2.take (min l1.length l2.length)) =
      l1.zip l2 := by
    rw [List.zip_eq_zipWith, List.zip_eq_zipWith, ← List.take_zipWith]
    exact List.take_of_length_le (by simp)
  rw [hz]

theorem rhe_nonneg (q : ℚ) (h : 0 ≤ q) : 0 ≤ rhe q := by
  have hf : (0 : ℤ) ≤ ⌊q⌋ := Int.floor_nonneg.mpr h
  unfold rhe
  split_ifs <;> omega

theorem rhe_le (q : ℚ) (n : ℤ) (h : q ≤ n) : rhe q ≤ n := by
  have hf : ⌊q⌋ ≤ n := by
    calc ⌊q⌋ ≤ ⌊(n : ℚ)⌋ := Int.floor_le_floor h
    _ = n := Int.floor_intCast n
  unfold rhe
  split_ifs with h1 h2 h3
  · exact hf
  · have hlt : (⌊q⌋ : ℚ) < n := by
      have : (1 : ℚ) / 2 < q - ⌊q⌋ := by unfold Int.fract at h2; exact h2
      have hqn : q ≤ (n : ℚ) := h
      linarith
    have : ⌊q⌋ < n := by exact_mod_cast hlt
    omega
  · exact hf
  · have heq : Int.fract q = 1 / 2 := le_antisymm (not_lt.mp h2) (not_lt.mp h1)
    have hlt : (⌊q⌋ : ℚ) < n := by
      have : q - ⌊q⌋ = 1 / 2 := by unfold Int.fract at heq; exact heq
      have hqn : q ≤ (n : ℚ) := h
      linarith
    have : ⌊q⌋ < n := by exact_mod_cast hlt
    omega

theorem pyRound2_nonneg (x : ℚ) (h : 0 ≤ x) : 0 ≤ pyRound2 x := by
  unfold pyRound2
  have := rhe_nonneg (x * 100) (by positivity)
  positivity

theorem pyRound2_le_100 (x : ℚ) (h : x ≤ 100) : pyRound2 x ≤ 100 := by
  unfold pyRound2
  rw [div_le_iff₀ (by norm_num : (0 : ℚ) < 100)]
  have h1 : rhe (x * 100) ≤ (10000 : ℤ) := by
    apply rhe_le
    push_cast
    linarith
  calc ((rhe (x * 100) : ℚ)) ≤ (10000 : ℚ) := by exact_mod_cast h1
  _ = 100 * 100 := by norm_num

theorem ATCG_cases (x : Fin 4) :
    ATCG x = 'A' ∨ ATCG x = 'T' ∨ ATCG x = 'C' ∨ ATCG x = 'G' := by
  fin_cases x <;> simp [ATCG]

theorem generate_main_length (env : PyEnv) (sample_id region : String)
    (age : Int) (seed : String) :
    (generate_dna_sequence_main env sample_id region age seed).length = 100 := by
  simp [generate_dna_sequence_main, strLength_data]

theorem generate_main_chars (env : PyEnv) (sample_id region : String)
    (age : Int) (seed : String) :
    ∀ c ∈ (generate_dna_sequence_main env sample_id region age seed).data,
      c = 'A' ∨ c = 'T' ∨ c = 'C' ∨ c = 'G' := by
  intro c hc
  simp only [generate_dna_sequence_main, List.mem_map] at hc
  obtain ⟨i, _, hi⟩ := hc
  rw [← hi]
  exact ATCG_cases _

theorem upload_foldl_filterMap (df : List RawRow) (store : Store) :
    df.foldl
      (fun st row =>
        match rowParse row with
        | some s => (process_sample_data s st).1
        | none => st)
      store =
    (df.filterMap rowParse).foldl (fun st s => (process_sample_data s st).1) store := by
  induction df generalizing store with
  | nil => rfl
  | cons r df ih =>
    cases h : rowParse r <;> simp [List.filterMap_cons, h, ih]

/-! ### Claims -/

/-- C6: upserting a sample whose id is already stored replaces all three
stored fields (region, age, seed) with the sample's values — last-write-wins,
no merge — so a subsequent lookup of that id returns exactly the sample's
fields. -/
theorem upsert_overwrites_all_fields (store : Store) (s : SampleData)
    (h : (dictLookup store s.id).isSome) :
    dictLookup (process_sample_data s store).1 s.id =
      some ⟨s.region, s.age, s.seed⟩ :=
  dictLookup_dictInsert_self store s.id _

/-- Witness for C6: overwriting the stored sample `A1` with new field
values makes the lookup return exactly the new values. -/
theorem upsert_overwrites_all_fields_witness :
    dictLookup (process_sample_data ⟨"A1", "Lima", 300, "z"⟩ storeA).1 "A1" =
      some ⟨"Lima", 300, "z"⟩ :=
  upsert_overwrites_all_fields storeA ⟨"A1", "Lima", 300, "z"⟩ (by decide)

/-- C7: `calculate_similarity` is symmetric in its two arguments
(including the divide-by-zero outcome, which both orders share). -/
theorem similarity_symm (a b : String) :
    calculate_similarity a b = calculate_similarity b a := by
  simp only [calculate_similarity]
  rw [matchCount_symm, min_comm]

/-- C10: the read-only endpoints `GET /generate-sequence`,
`GET /compare-sequences` and `GET /list-samples` leave the store untouched
for every starting store and every request arguments, on the success and
the not-found paths alike. -/
theorem read_endpoints_preserve_store (env : PyEnv) (store : Store)
    (sid id1 id2 : String) :
    (get_sequence env store sid).2 = store ∧
    (compare_sequences env store id1 id2).2 = store ∧
    (list_samples store).2 = store := by
  refine ⟨?_, ?_, rfl⟩
  · unfold get_sequence
    cases dictLookup store sid <;> rfl
  · unfold compare_sequences
    cases dictLookup store id1 with
    | none => cases dictLookup store id2 <;> rfl
    | some d1 =>
      cases dictLookup store id2 with
      | none => rfl
      | some d2 =>
        dsimp only
        split <;> rfl

/-- Counterexample for C3: on an empty store, the question
"how many samples?" is answered by the empty-store branch, which precedes
the count branch, so the answer is not "There are 0 records in the
uploaded data.". -/
theorem ask_empty_answer_ne_count_answer :
    (ask_me_anything cfgA [] "how many samples?").1 ≠
      "There are 0 records in the uploaded data." := by decide

/-- C3 (amended): on an empty store, `POST /ask-me-anything` with the
question "how many samples?" returns exactly
"No data has been uploaded yet. Please upload a CSV file first.",
whatever the configuration. -/
theorem ask_empty_store_no_data_answer (cfg : Config) :
    (ask_me_anything cfg [] "how many samples?").1 =
      "No data has been uploaded yet. Please upload a CSV file first." := rfl

/-- Counterexample for C4: on a batch with one well-formed and one
malformed row, the reported count (2, the number of parsed rows) differs
from the number of records actually affected (1). -/
theorem upload_csv_count_ne_affected :
    (upload_csv dfA []).1 ≠
      s!"{(dfA.filter fun r => (rowParse r).isSome).length} records successfully uploaded." := by
  decide

/-- C4 (amended): the CSV upload skips each malformed row without failing
the batch — the final store is exactly the fold of the well-formed rows —
and returns a success message reporting the total number of parsed rows,
including the skipped ones. -/
theorem upload_csv_skips_and_reports_row_count (df : List RawRow) (store : Store) :
    upload_csv df store =
      (s!"{df.length} records successfully uploaded.",
        (df.filterMap rowParse).foldl (fun st s => (process_sample_data s st).1) store) := by
  simp only [upload_csv]
  rw [upload_foldl_filterMap]

/-- Counterexample for C1: two processes running the identical fixed
algorithms but restarted with different interpreter hash salts produce
different outputs from the `main.py` generator on the same input tuple,
because that generator seeds from the salted builtin `hash`. -/
theorem main_generator_salt_dependent :
    sameAlgorithms envA envB ∧
    generate_dna_sequence_main envA "A1" "Andes" 500 "x" ≠
      generate_dna_sequence_main envB "A1" "Andes" 500 "x" :=
  ⟨⟨rfl, rfl, rfl⟩, by decide⟩

/-- C1 (amended): for a fixed input tuple, the SHA-256-seeded generator of
`dna_generator.py` returns the identical string in any two processes
running the same fixed algorithms (regardless of their hash salts), while
the `main.py` generator returns the identical string across repeated calls
within processes sharing the same interpreter hash salt. -/
theorem generators_deterministic_given_salt (e1 e2 : PyEnv)
    (h : sameAlgorithms e1 e2) (id region : String) (age : Int) (seed : String) :
    generate_dna_sequence_sha e1 id region age seed =
      generate_dna_sequence_sha e2 id region age seed ∧
    (e1.hashSalt = e2.hashSalt →
      generate_dna_sequence_main e1 id region age seed =
        generate_dna_sequence_main e2 id region age seed) := by
  obtain ⟨hk, hs, hr⟩ := h
  refine ⟨?_, fun hsalt => ?_⟩
  · simp only [generate_dna_sequence_sha, hs, hr]
  · simp only [generate_dna_sequence_main, hk, hr, hsalt]

/-- Witness for C1 (amended): concrete cross-process run of the SHA
variant (salts 0 and 1) and concrete same-process repeat of the `main.py`
variant. -/
theorem generators_deterministic_given_salt_witness :
    generate_dna_sequence_sha envA "A1" "Andes" 500 "x" =
      generate_dna_sequence_sha envB "A1" "Andes" 500 "x" ∧
    generate_dna_sequence_main envA "A1" "Andes" 500 "x" =
      generate_dna_sequence_main envA "A1" "Andes" 500 "x" :=
  ⟨(generators_deterministic_given_salt envA envB ⟨rfl, rfl, rfl⟩
      "A1" "Andes" 500 "x").1,
   (generators_deterministic_given_salt envA envA ⟨rfl, rfl, rfl⟩
      "A1" "Andes" 500 "x").2 rfl⟩

/-- Counterexample for C2: for the stored sample `A1`, the sequence
returned by `GET /generate-sequence` has length 100, not 200 — the
endpoint calls the `main.py` generator, which draws `k=100` letters. -/
theorem get_sequence_length_100_not_200 :
    ((get_sequence envA storeA "A1").1.toOption.map fun p => p.2.length) =
      some 100 ∧ (100 : Nat) ≠ 200 :=
  ⟨by decide, by decide⟩

/-- C2 (amended): for every stored sample, `GET /generate-sequence`
succeeds with a sequence of length exactly 100, every character of which
is one of A, T, C, G; and a second call (on the store the first call
returned) yields the identical string. -/
theorem get_sequence_ok_length_alphabet_repeat (env : PyEnv) (store : Store)
    (sid : String) (data : SampleRec) (h : dictLookup store sid = some data) :
    ∃ seq : String,
      (get_sequence env store sid).1 = .ok (sid, seq) ∧
      seq.length = 100 ∧
      (∀ c ∈ seq.data, c = 'A' ∨ c = 'T' ∨ c = 'C' ∨ c = 'G') ∧
      (get_sequence env (get_sequence env store sid).2 sid).1 = .ok (sid, seq) := by
  have hok : get_sequence env store sid =
      (.ok (sid, generate_dna_sequence_main env sid data.region data.age data.seed),
        store) := by
    unfold get_sequence
    rw [h]
  refine ⟨generate_dna_sequence_main env sid data.region data.age data.seed,
    ?_, generate_main_length env sid data.region data.age data.seed,
    generate_main_chars env sid data.region data.age data.seed, ?_⟩
  · rw [hok]
  · rw [hok, hok]

/-- Witness for C2 (amended): the end-to-end scenario row `A1`. -/
theorem get_sequence_ok_length_alphabet_repeat_witness :
    ∃ seq : String,
      (get_sequence envA storeA "A1").1 = .ok ("A1", seq) ∧
      seq.length = 100 ∧
      (∀ c ∈ seq.data, c = 'A' ∨ c = 'T' ∨ c = 'C' ∨ c = 'G') ∧
      (get_sequence envA (get_sequence envA storeA "A1").2 "A1").1 =
        .ok ("A1", seq) :=
  get_sequence_ok_length_alphabet_repeat envA storeA "A1" ⟨"Andes", 500, "x"⟩
    (by decide)

/-- C5: on strings of unequal length whose shorter one is non-empty,
`calculate_similarity` counts matching positions over the common prefix of
length `min(len(seq1), len(seq2))` and divides by that same minimum length,
times 100, rounded to two decimals. -/
theorem similarity_unequal_lengths_prefix (s1 s2 : String)
    (hne : s1.length ≠ s2.length) (hm : 0 < min s1.length s2.length) :
    calculate_similarity s1 s2 =
      some (pyRound2
        ((matchCount (s1.data.take (min s1.length s2.length))
            (s2.data.take (min s1.length s2.length)) : ℚ) /
          ((min s1.length s2.length : ℕ) : ℚ) * 100)) := by
  have hm' : min s1.length s2.length ≠ 0 := Nat.pos_iff_ne_zero.mp hm
  simp only [calculate_similarity, if_neg hm']
  rw [← matchCount_take_min s1.data s2.data]
  rfl

/-- Witness for C5: strings of lengths 2 and 3. -/
theorem similarity_unequal_lengths_prefix_witness :
    calculate_similarity "AB" "ACD" =
      some (pyRound2
        ((matchCount ("AB".data.take (min "AB".length "ACD".length))
            ("ACD".data.take (min "AB".length "ACD".length)) : ℚ) /
          ((min "AB".length "ACD".length : ℕ) : ℚ) * 100)) :=
  similarity_unequal_lengths_prefix "AB" "ACD" (by decide) (by decide)

/-- C8: when either argument is empty, `calculate_similarity` hits its
unguarded division by zero (modelled as `none`); when both are non-empty it
is total and its value lies in [0, 100]. -/
theorem similarity_empty_none_and_range :
    (∀ a b : String, a.length = 0 ∨ b.length = 0 →
      calculate_similarity a b = none) ∧
    (∀ a b : String, 0 < a.length → 0 < b.length →
      ∃ q, calculate_similarity a b = some q ∧ 0 ≤ q ∧ q ≤ 100) := by
  constructor
  · intro a b h
    have hz : min a.length b.length = 0 := by omega
    simp [calculate_similarity, hz]
  · intro a b ha hb
    have hL : 0 < min a.length b.length := by omega
    have hL' : min a.length b.length ≠ 0 := Nat.pos_iff_ne_zero.mp hL
    refine ⟨pyRound2 ((matchCount a.data b.data : ℚ) /
      ((min a.length b.length : ℕ) : ℚ) * 100), ?_, ?_, ?_⟩
    · simp only [calculate_similarity, if_neg hL']
    · apply pyRound2_nonneg
      positivity
    · apply pyRound2_le_100
      have hle : matchCount a.data b.data ≤ min a.length b.length :=
        matchCount_le_min a.data b.data
      have hdiv : (matchCount a.data b.data : ℚ) /
          ((min a.length b.length : ℕ) : ℚ) ≤ 1 := by
        rw [div_le_one (by exact_mod_cast hL)]
        exact_mod_cast hle
      linarith

/-- Witness for C8: the empty/"AT" pair hits the zero-division branch and
the "AT"/"AG" pair yields an in-range percentage. -/
theorem similarity_empty_none_and_range_witness :
    calculate_similarity "" "AT" = none ∧
    ∃ q, calculate_similarity "AT" "AG" = some q ∧ 0 ≤ q ∧ q ≤ 100 :=
  ⟨similarity_empty_none_and_range.1 "" "AT" (Or.inl rfl),
   similarity_empty_none_and_range.2 "AT" "AG" (by decide) (by decide)⟩

/-- C9: whenever both ids are stored, the similarity percentage that
`GET /compare-sequences` computes inline (matches divided by `len(seq1)`)
equals `calculate_similarity` on the same two generated sequences, because
the `main.py` generator always returns strings of the fixed length 100. -/
theorem compare_endpoint_refines_calculate_similarity (env : PyEnv)
    (store : Store) (id1 id2 : String) (d1 d2 : SampleRec)
    (h1 : dictLookup store id1 = some d1) (h2 : dictLookup store id2 = some d2) :
    ∃ q : ℚ,
      calculate_similarity
        (generate_dna_sequence_main env id1 d1.region d1.age d1.seed)
        (generate_dna_sequence_main env id2 d2.region d2.age d2.seed) = some q ∧
      (compare_sequences env store id1 id2).1 = .ok (id1, id2, q) := by
  have hl1 : (generate_dna_sequence_main env id1 d1.region d1.age d1.seed).length = 100 :=
    generate_main_length env id1 d1.region d1.age d1.seed
  have hl2 : (generate_dna_sequence_main env id2 d2.region d2.age d2.seed).length = 100 :=
    generate_main_length env id2 d2.region d2.age d2.seed
  refine ⟨pyRound2
    ((matchCount (generate_dna_sequence_main env id1 d1.region d1.age d1.seed).data
        (generate_dna_sequence_main env id2 d2.region d2.age d2.seed).data : ℚ) /
      ((100 : ℕ) : ℚ) * 100), ?_, ?_⟩
  · simp only [calculate_similarity, hl1, hl2]
    norm_num
  · unfold compare_sequences
    rw [h1, h2]
    simp only [hl1]
    norm_num

/-- Witness for C9: the two samples of the concrete two-entry store. -/
theorem compare_endpoint_refines_calculate_similarity_witness :
    ∃ q : ℚ,
      calculate_similarity
        (generate_dna_sequence_main envA "A1" "Andes" 500 "x")
        (generate_dna_sequence_main envA "B2" "Alps" 300 "y") = some q ∧
      (compare_sequences envA storeB "A1" "B2").1 = .ok ("A1", "B2", q) :=
  compare_endpoint_refines_calculate_similarity envA storeB "A1" "B2"
    ⟨"Andes", 500, "x"⟩ ⟨"Alps", 300, "y"⟩ (by decide) (by decide)

end GeneWise
